import Mathlib

/-!
Shallow embedding of the go-plex-client notification-streaming subsystem
(`websocket_client.go`) and of the JSON timestamp codec (`timestamp.go`).

Go `int64` fields are modelled as `Int`, `float64` fields as `Float`
(they are carried opaquely, never computed with), `bool` as `Bool` and
`string` as `String`.  The Go struct field `Type` is rendered `Type'`
because `Type` is reserved in Lean.
-/

/-- Record `TimelineEntry` of websocket_client.go. -/
structure TimelineEntry where
  Identifier : String
  ItemID : Int
  MetadataState : String
  SectionID : Int
  State : Int
  Title : String
  Type' : Int
  UpdatedAt : Int

/-- Inner anonymous struct of `ActivityNotification.Activity`. -/
structure Activity where
  Cancellable : Bool
  Progress : Int
  Subtitle : String
  Title : String
  Type' : String
  UserID : Int
  UUID : String

/-- Record `ActivityNotification` of websocket_client.go. -/
structure ActivityNotification where
  Activity : Activity
  Event : String
  UUID : String

/-- Record `StatusNotification` of websocket_client.go. -/
structure StatusNotification where
  Description : String
  NotificationName : String
  Title : String

/-- Record `PlaySessionStateNotification` of websocket_client.go. -/
structure PlaySessionStateNotification where
  ClientIdentifier : String
  GUID : String
  Key : String
  PlayQueueItemID : Int
  PlayQueueID : Int
  RatingKey : String
  SessionKey : String
  State : String
  URL : String
  ViewOffset : Int
  TranscodeSession : String

/-- Record `ReachabilityNotification` of websocket_client.go. -/
structure ReachabilityNotification where
  Reachability : Bool

/-- Record `BackgroundProcessingQueueEventNotification` of websocket_client.go. -/
structure BackgroundProcessingQueueEventNotification where
  Event : String
  QueueID : Int

/-- Record `TranscodeSession` of websocket_client.go. -/
structure TranscodeSession where
  AudioChannels : Int
  AudioCodec : String
  AudioDecision : String
  Complete : Bool
  Container : String
  Context : String
  Duration : Int
  Key : String
  Progress : Float
  Protocol : String
  Remaining : Int
  SourceAudioCodec : String
  SourceVideoCodec : String
  Speed : Float
  Throttled : Bool
  TranscodeHwRequested : Bool
  VideoCodec : String
  VideoDecision : String

/-- Record `Setting` of websocket_client.go. -/
structure Setting where
  Advanced : Bool
  Default : Bool
  Group : String
  Hidden : Bool
  ID : String
  Label : String
  Summary : String
  Type' : String
  Value : String

/-- Record `NotificationContainer` of websocket_client.go: the payload bundle of
one decoded frame.  Field names are the Go field names (lowercased initial to
avoid clashing with the element types; the Go `Type` field becomes `Type'`). -/
structure NotificationContainer where
  timelineEntry : List TimelineEntry
  activityNotification : List ActivityNotification
  statusNotification : List StatusNotification
  playSessionStateNotification : List PlaySessionStateNotification
  reachabilityNotification : List ReachabilityNotification
  backgroundProcessingQueueEventNotification : List BackgroundProcessingQueueEventNotification
  transcodeSession : List TranscodeSession
  setting : List Setting
  Size : Int
  Type' : String

/-- Record `WebsocketNotification` of websocket_client.go: the decoded frame,
a struct embedding `NotificationContainer` (accessed as `notif.NotificationContainer`
in Go; `notif.Type` promotes to the container field). -/
structure WebsocketNotification where
  container : NotificationContainer

/-- Handlers stored in the dispatch table.  The Go code stores values of type
`func(n NotificationContainer)` and treats them opaquely: they are only ever
stored and invoked, never inspected.  We model them by an abstract inductive:
`noop` stands for the literal no-op closures `func(n NotificationContainer) {}`
built in `NewNotificationEvents`, and `user id` stands for a caller-supplied
function (distinct ids model distinct functions). -/
inductive Handler where
  | noop : Handler
  | user (id : Nat) : Handler
deriving DecidableEq, Repr

/-- Record `NotificationEvents` of websocket_client.go: the dispatch table.
The Go `map[string]func(n NotificationContainer)` is modelled as an association
list with unique keys; `mapSet` below mirrors Go map assignment. -/
structure NotificationEvents where
  events : List (String × Handler)

/-- Go map assignment `m[k] = v`: overwrite the entry for `k` when present,
otherwise insert a fresh one. -/
def mapSet (m : List (String × Handler)) (k : String) (v : Handler) :
    List (String × Handler) :=
  if m.any (fun p => p.1 = k) then
    m.map (fun p => if p.1 = k then (k, v) else p)
  else
    m ++ [(k, v)]

/-- Function `NewNotificationEvents` of websocket_client.go: seeds every
recognized event kind with a no-op handler. -/
def NewNotificationEvents : NotificationEvents :=
  { events :=
      [ ("playing", Handler.noop)
      , ("progress", Handler.noop)
      , ("reachability", Handler.noop)
      , ("transcode.end", Handler.noop)
      , ("transcodeSession.start", Handler.noop)
      , ("transcodeSession.end", Handler.noop)
      , ("transcodeSession.update", Handler.noop)
      , ("preference", Handler.noop)
      , ("update.statechange", Handler.noop)
      , ("activity", Handler.noop)
      , ("backgroundProcessingQueue", Handler.noop)
      , ("status", Handler.noop)
      , ("timeline", Handler.noop)
      , ("account", Handler.noop) ] }

/-- Method `OnPlaying` of websocket_client.go: `e.events["playing"] = fn`. -/
def NotificationEvents.OnPlaying (e : NotificationEvents) (fn : Handler) :
    NotificationEvents :=
  { events := mapSet e.events ("playing") fn }

/-- Method `OnTranscodeUpdate` of websocket_client.go:
`e.events["transcodeSession.update"] = fn`. -/
def NotificationEvents.OnTranscodeUpdate (e : NotificationEvents) (fn : Handler) :
    NotificationEvents :=
  { events := mapSet e.events ("transcodeSession.update") fn }

example : (List.lookup ("playing") NewNotificationEvents.events) = some Handler.noop := by
  decide

/-- Gorilla websocket constant `CloseNormalClosure` (RFC 6455 code 1000). -/
def closeNormalClosure : Nat := 1000

/-- Outcome of one `c.ReadJSON(&notif)` call, the read-side oracle of the
environment: either a successfully decoded frame, or an error.  An error
carries the close code when it is a websocket close error (so that
`IsCloseError(err, CloseNormalClosure)` is `closeCode = some 1000`), and
`none` for any non-close error (network failure, decode failure, ...). -/
inductive ReadResult where
  | frame (notif : WebsocketNotification)
  | readErr (closeCode : Option Nat) (msg : String)

/-- Observable actions of a session, in program order per task: callback
invocations, handler invocations, console prints, the `close(done)` and
`c.Close()` calls, heartbeat writes and the shutdown close-frame write. -/
inductive Event where
  | errCb (e : String)
  | doneCb
  | handlerCall (h : Handler) (n : NotificationContainer)
  | logMsg (s : String)
  | closeDone
  | connClose
  | heartbeatSend (t : String) (writeErr : Option String)
  | closeFrame (code : Nat)

/-- The read goroutine of `SubscribeToNotifications` (websocket_client.go):
loop { ReadJSON; on normal-close error call doneCb and return; on any other
error print and call errCb and return; otherwise look the frame type up in the
dispatch table, invoking the handler with the frame's container when present
and logging when absent }.  The two `defer` statements run on return in LIFO
order: `close(done)` first, then `c.Close()`.  The oracle list gives the
outcome of each successive read; an empty remainder means the loop is still
blocked on the next read (so no exit events are emitted). -/
def subscribeReadLoop (events : NotificationEvents) : List ReadResult → List Event
  | [] => []
  | ReadResult.readErr code msg :: _ =>
      if code = some closeNormalClosure then
        [Event.doneCb, Event.closeDone, Event.connClose]
      else
        [Event.logMsg ("read: " ++ msg), Event.errCb msg,
         Event.closeDone, Event.connClose]
  | ReadResult.frame notif :: rest =>
      match List.lookup notif.container.Type' events.events with
      | some h => Event.handlerCall h notif.container :: subscribeReadLoop events rest
      | none =>
          Event.logMsg ("Unknown websocket event name: " ++ notif.container.Type') ::
            subscribeReadLoop events rest

/-- One resolution of the heartbeat goroutine's `select`, the heartbeat-side
oracle: either the ticker fired (carrying the tick time string written and the
result of `c.WriteMessage`), or the interrupt channel fired.  For an interrupt,
`doneBeforeTimeout` records which arm of the inner shutdown `select` wins:
`true` when the `done` channel (closed by the exiting read goroutine) fires
before the one-second timer, `false` when the timer fires first. -/
inductive HBStep where
  | tick (t : String) (writeErr : Option String)
  | interrupt (doneBeforeTimeout : Bool)

/-- The heartbeat goroutine of `SubscribeToNotifications` (websocket_client.go):
loop { select { tick: WriteMessage(text), invoking errCb on write failure and
continuing to tick; interrupt: write one close-frame with the normal-closure
code (write error ignored), then select { done: nothing | 1s timeout: print
and `c.Close()` }, then return } }.  Steps after the first interrupt are
ignored: the goroutine has returned. -/
def subscribeHeartbeatLoop : List HBStep → List Event
  | [] => []
  | HBStep.tick t none :: rest =>
      Event.heartbeatSend t none :: subscribeHeartbeatLoop rest
  | HBStep.tick t (some e) :: rest =>
      Event.heartbeatSend t (some e) :: Event.errCb e :: subscribeHeartbeatLoop rest
  | HBStep.interrupt ack :: _ =>
      Event.closeFrame closeNormalClosure ::
        (if ack then [] else [Event.logMsg ("WebSocket closing"), Event.connClose])

/-- All observable actions of one session after a successful setup: the read
goroutine's actions followed by the heartbeat goroutine's actions.  The two
goroutines interleave in real time, but every property stated below (callback
counts, close counts, per-task ordering) is invariant under interleaving, so
concatenation is a faithful representative. -/
def sessionEvents (events : NotificationEvents) (ro : List ReadResult)
    (ho : List HBStep) : List Event :=
  subscribeReadLoop events ro ++ subscribeHeartbeatLoop ho

/-- Struct `Plex` (client.go types): the fields `SubscribeToNotifications`
reads.  The other fields (headers, HTTP clients, ...) are not consulted. -/
structure Plex where
  URL : String
  Token : String

/-- Struct `url.URL` restricted to the fields the subsystem constructs or
reads.  A Go composite literal zero-values every omitted field, hence
`RawQuery` (the query string) is explicit so that claims about query
parameters are statable. -/
structure GoURL where
  Scheme : String
  Host : String
  Path : String
  RawQuery : String

/-- The argument pair handed to `websocket.DefaultDialer.Dial`: the URL record
whose serialization is dialed, and the header map. -/
structure DialRequest where
  url : GoURL
  headers : List (String × List String)

/-- Result of the setup phase of `SubscribeToNotifications`: parse failed (no
dial attempted, callbacks invoked, no goroutine spawned), dial failed (dial
attempted with the recorded request, callbacks invoked, no goroutine spawned),
or dial succeeded (the two goroutines are spawned). -/
inductive SetupOutcome where
  | failed (evs : List Event)
  | dialFailed (req : DialRequest) (evs : List Event)
  | started (req : DialRequest)

/-- The dial request the setup phase issued, if it reached the dial. -/
def SetupOutcome.dialed? : SetupOutcome → Option DialRequest
  | SetupOutcome.failed _ => none
  | SetupOutcome.dialFailed req _ => some req
  | SetupOutcome.started req => some req

/-- Setup phase of `SubscribeToNotifications` (websocket_client.go): parse
`p.URL`; on error call errCb and return.  Build
`url.URL{Scheme: "wss", Host: plexURL.Host, Path: "/:/websockets/notifications"}`
and the header map `{"X-Plex-Token": [p.Token]}`; dial; on error call errCb
and return; otherwise the two goroutines are spawned.  `parse` is the oracle
for `url.Parse` and `dialErr` the oracle for the dial's error result. -/
def Plex.SubscribeToNotifications (p : Plex)
    (parse : String → Except String GoURL)
    (dialErr : Option String) : SetupOutcome :=
  match parse p.URL with
  | Except.error e => SetupOutcome.failed [Event.errCb e]
  | Except.ok plexURL =>
      let websocketURL : GoURL :=
        { Scheme := "wss", Host := plexURL.Host
        , Path := "/:/websockets/notifications", RawQuery := "" }
      let headers : List (String × List String) := [("X-Plex-Token", [p.Token])]
      match dialErr with
      | some e =>
          SetupOutcome.dialFailed { url := websocketURL, headers := headers }
            [Event.errCb e]
      | none => SetupOutcome.started { url := websocketURL, headers := headers }

/-- Is this event an `errCb` invocation? -/
def Event.isErrCb : Event → Bool
  | Event.errCb _ => true
  | _ => false

/-- Is this event a `doneCb` invocation? -/
def Event.isDoneCb : Event → Bool
  | Event.doneCb => true
  | _ => false

/-- Is this event an invocation of one of the two outcome callbacks? -/
def Event.isCallback (e : Event) : Bool := e.isErrCb || e.isDoneCb

/-- Is this event a `c.Close()` call? -/
def Event.isConnClose : Event → Bool
  | Event.connClose => true
  | _ => false

/-- Is this event a close-frame write? -/
def Event.isCloseFrame : Event → Bool
  | Event.closeFrame _ => true
  | _ => false

/-- Is this event a handler invocation? -/
def Event.isHandlerCall : Event → Bool
  | Event.handlerCall _ _ => true
  | _ => false

/-- Number of `errCb` invocations in a trace. -/
def errCbCount (evs : List Event) : Nat := evs.countP (fun e => e.isErrCb)

/-- Number of `doneCb` invocations in a trace. -/
def doneCbCount (evs : List Event) : Nat := evs.countP (fun e => e.isDoneCb)

/-- Number of outcome-callback invocations in a trace. -/
def callbackCount (evs : List Event) : Nat := evs.countP (fun e => e.isCallback)

/-- Number of `c.Close()` calls in a trace. -/
def connCloseCount (evs : List Event) : Nat := evs.countP (fun e => e.isConnClose)

/-- Number of close-frame writes in a trace. -/
def closeFrameCount (evs : List Event) : Nat := evs.countP (fun e => e.isCloseFrame)

/-- Does the read oracle make the read loop exit?  (The Go loop only returns
when `ReadJSON` reports an error.) -/
def ReadResult.isExit : ReadResult → Bool
  | ReadResult.readErr _ _ => true
  | _ => false

/-- The read goroutine terminates on this oracle. -/
def readHalts (ro : List ReadResult) : Bool := ro.any ReadResult.isExit

/-- Number of failed heartbeat writes the heartbeat loop performs on this
oracle (ticks after the first interrupt are never processed). -/
def hbWriteErrs : List HBStep → Nat
  | [] => 0
  | HBStep.tick _ none :: rest => hbWriteErrs rest
  | HBStep.tick _ (some _) :: rest => hbWriteErrs rest + 1
  | HBStep.interrupt _ :: _ => 0

/-- Does the heartbeat loop shut down through the timeout arm (and hence call
`c.Close()` itself)? -/
def hbTimeoutClose : List HBStep → Bool
  | [] => false
  | HBStep.tick _ _ :: rest => hbTimeoutClose rest
  | HBStep.interrupt ack :: _ => !ack

/-- Does the heartbeat oracle contain an interrupt (so the loop returns)? -/
def HBStep.isInterrupt : HBStep → Bool
  | HBStep.interrupt _ => true
  | _ => false

/-- The heartbeat goroutine terminates on this oracle. -/
def hbHalts (ho : List HBStep) : Bool := ho.any HBStep.isInterrupt

/-!
Model of timestamp.go.  Go's `time.Time` is modelled by its observable
components: `sec` (the int64 that `Unix()` returns), `nsec` (sub-second
precision) and `loc` (the location name).
-/

/-- Model of Go `time.Time`: epoch seconds (the value `Unix()` returns),
nanoseconds within the second, and the location. -/
structure GoTime where
  sec : Int
  nsec : Int
  loc : String

/-- Type `Timestamp` of timestamp.go: `type Timestamp time.Time`. -/
abbrev Timestamp := GoTime

/-- Go `time.Unix(sec, nsec)`: a `time.Time` with the given epoch seconds in
the Local location.  timestamp.go only calls it with `nsec = 0`, so no
nanosecond normalization is modelled. -/
def timeUnix (sec : Int) (nsec : Int) : GoTime :=
  { sec := sec, nsec := nsec, loc := "Local" }

/-- Method `Unix` of timestamp.go: epoch seconds; independent of `nsec`
precision beyond the second and of the location. -/
def Timestamp.Unix (t : Timestamp) : Int := t.sec

/-- The character for a decimal digit `d < 10` (Go's digit table). -/
def digitChar (d : Nat) : Char := Char.ofNat (48 + d)

/-- Big-endian decimal digit characters of a natural number, as produced by
Go's `strconv` formatting loop. -/
def natToDigits (n : Nat) : List Char :=
  if _h : n < 10 then [digitChar n]
  else natToDigits (n / 10) ++ [digitChar (n % 10)]
decreasing_by
  exact Nat.div_lt_self (by omega) (by omega)

/-- Go `strconv.FormatInt(v, 10)`: minus sign for negatives followed by the
decimal digits of the absolute value. -/
def FormatInt (v : Int) : String :=
  if v < 0 then String.mk ('-' :: natToDigits v.natAbs)
  else String.mk (natToDigits v.natAbs)

/-- Numeric value of a decimal digit character, `none` for a non-digit. -/
def decDigit? (c : Char) : Option Nat :=
  if 48 ≤ c.toNat ∧ c.toNat ≤ 57 then some (c.toNat - 48) else none

/-- One step of the decimal accumulation loop of `strconv.ParseInt`. -/
def digitStep (acc : Option Nat) (c : Char) : Option Nat :=
  acc.bind (fun a => (decDigit? c).map (fun d => a * 10 + d))

/-- Value of a nonempty all-digits character list; `none` when the list is
empty or contains a non-digit. -/
def digitsVal? (cs : List Char) : Option Nat :=
  if cs.isEmpty then none else cs.foldl digitStep (some 0)

/-- Largest int64, the upper cutoff of `strconv.ParseInt(s, 10, 64)`. -/
def int64Max : Int := 2 ^ 63 - 1

/-- Smallest int64, the lower cutoff of `strconv.ParseInt(s, 10, 64)`. -/
def int64Min : Int := -(2 ^ 63)

/-- Error string of Go `strconv.ParseInt` for malformed input. -/
def strconvSyntaxError (s : String) : String :=
  "strconv.ParseInt: parsing " ++ s ++ ": invalid syntax"

/-- Error string of Go `strconv.ParseInt` for out-of-range input. -/
def strconvRangeError (s : String) : String :=
  "strconv.ParseInt: parsing " ++ s ++ ": value out of range"

/-- Go `strconv.ParseInt(s, 10, 64)`: an optional sign followed by at least
one decimal digit, with the value required to fit in int64. -/
def ParseInt64 (s : String) : Except String Int :=
  let cs := s.toList
  let stripped : Bool × List Char :=
    if cs.head? = some '-' then (true, cs.tail)
    else if cs.head? = some '+' then (false, cs.tail)
    else (false, cs)
  match digitsVal? stripped.2 with
  | none => Except.error (strconvSyntaxError s)
  | some n =>
      let v : Int := if stripped.1 then -(n : Int) else (n : Int)
      if v < int64Min ∨ int64Max < v then Except.error (strconvRangeError s)
      else Except.ok v

/-- Method `MarshalJSON` of timestamp.go: the decimal bytes of
`time.Time(t).Unix()` paired with the returned error, which is always nil. -/
def Timestamp.MarshalJSON (t : Timestamp) : String × Option String :=
  (FormatInt t.sec, none)

/-- Method `UnmarshalJSON` of timestamp.go, as a transformer of the pointer
receiver: parse the bytes as a decimal int64; on failure return the error with
the receiver untouched; on success overwrite the receiver with
`time.Unix(q, 0)` and return nil. -/
def Timestamp.UnmarshalJSON (t : Timestamp) (s : String) : Timestamp × Option String :=
  match ParseInt64 s with
  | Except.error e => (t, some e)
  | Except.ok q => (timeUnix q 0, none)

/-!
Counting lemmas.  The `..._cons` lemmas step a counter over one event without
unfolding the counter on the tail, so inductions stay packaged.
-/

theorem callbackCount_nil : callbackCount [] = 0 := rfl

theorem callbackCount_cons (e : Event) (evs : List Event) :
    callbackCount (e :: evs) =
      callbackCount evs + (if e.isCallback = true then 1 else 0) := by
  simp [callbackCount, List.countP_cons]

theorem callbackCount_append (a b : List Event) :
    callbackCount (a ++ b) = callbackCount a + callbackCount b := by
  simp [callbackCount, List.countP_append]

theorem connCloseCount_nil : connCloseCount [] = 0 := rfl

theorem connCloseCount_cons (e : Event) (evs : List Event) :
    connCloseCount (e :: evs) =
      connCloseCount evs + (if e.isConnClose = true then 1 else 0) := by
  simp [connCloseCount, List.countP_cons]

theorem connCloseCount_append (a b : List Event) :
    connCloseCount (a ++ b) = connCloseCount a + connCloseCount b := by
  simp [connCloseCount, List.countP_append]

theorem closeFrameCount_nil : closeFrameCount [] = 0 := rfl

theorem closeFrameCount_cons (e : Event) (evs : List Event) :
    closeFrameCount (e :: evs) =
      closeFrameCount evs + (if e.isCloseFrame = true then 1 else 0) := by
  simp [closeFrameCount, List.countP_cons]

theorem closeFrameCount_append (a b : List Event) :
    closeFrameCount (a ++ b) = closeFrameCount a + closeFrameCount b := by
  simp [closeFrameCount, List.countP_append]

theorem errCbCount_cons (e : Event) (evs : List Event) :
    errCbCount (e :: evs) = errCbCount evs + (if e.isErrCb = true then 1 else 0) := by
  simp [errCbCount, List.countP_cons]

theorem doneCbCount_cons (e : Event) (evs : List Event) :
    doneCbCount (e :: evs) = doneCbCount evs + (if e.isDoneCb = true then 1 else 0) := by
  simp [doneCbCount, List.countP_cons]

theorem errCbCount_append (a b : List Event) :
    errCbCount (a ++ b) = errCbCount a + errCbCount b := by
  simp [errCbCount, List.countP_append]

theorem doneCbCount_append (a b : List Event) :
    doneCbCount (a ++ b) = doneCbCount a + doneCbCount b := by
  simp [doneCbCount, List.countP_append]

/-!
Lemmas about the read loop and the heartbeat loop.
-/

theorem readLoop_halts_callbacks (tbl : NotificationEvents) (ro : List ReadResult)
    (h : readHalts ro = true) : callbackCount (subscribeReadLoop tbl ro) = 1 := by
  induction ro with
  | nil => simp [readHalts] at h
  | cons r rest ih =>
      cases r with
      | readErr code msg =>
          by_cases hc : code = some closeNormalClosure <;>
            simp [subscribeReadLoop, hc, callbackCount_cons, callbackCount_nil,
              Event.isCallback, Event.isErrCb, Event.isDoneCb]
      | frame notif =>
          have hrest : readHalts rest = true := by
            simpa [readHalts, ReadResult.isExit] using h
          cases hl : List.lookup notif.container.Type' tbl.events with
          | some hd =>
              simp [subscribeReadLoop, hl, callbackCount_cons,
                Event.isCallback, Event.isErrCb, Event.isDoneCb, ih hrest]
          | none =>
              simp [subscribeReadLoop, hl, callbackCount_cons,
                Event.isCallback, Event.isErrCb, Event.isDoneCb, ih hrest]

theorem readLoop_halts_connClose (tbl : NotificationEvents) (ro : List ReadResult)
    (h : readHalts ro = true) : connCloseCount (subscribeReadLoop tbl ro) = 1 := by
  induction ro with
  | nil => simp [readHalts] at h
  | cons r rest ih =>
      cases r with
      | readErr code msg =>
          by_cases hc : code = some closeNormalClosure <;>
            simp [subscribeReadLoop, hc, connCloseCount_cons, connCloseCount_nil,
              Event.isConnClose]
      | frame notif =>
          have hrest : readHalts rest = true := by
            simpa [readHalts, ReadResult.isExit] using h
          cases hl : List.lookup notif.container.Type' tbl.events with
          | some hd =>
              simp [subscribeReadLoop, hl, connCloseCount_cons,
                Event.isConnClose, ih hrest]
          | none =>
              simp [subscribeReadLoop, hl, connCloseCount_cons,
                Event.isConnClose, ih hrest]

theorem hbLoop_callbacks (ho : List HBStep) :
    callbackCount (subscribeHeartbeatLoop ho) = hbWriteErrs ho := by
  induction ho with
  | nil => rfl
  | cons s rest ih =>
      cases s with
      | tick t we =>
          cases we with
          | none =>
              simp [subscribeHeartbeatLoop, hbWriteErrs, callbackCount_cons,
                Event.isCallback, Event.isErrCb, Event.isDoneCb, ih]
          | some e =>
              simp [subscribeHeartbeatLoop, hbWriteErrs, callbackCount_cons,
                Event.isCallback, Event.isErrCb, Event.isDoneCb, ih]
      | interrupt ack =>
          cases ack <;>
            simp [subscribeHeartbeatLoop, hbWriteErrs, callbackCount_cons,
              callbackCount_nil, Event.isCallback, Event.isErrCb, Event.isDoneCb]

theorem hbLoop_connClose (ho : List HBStep) :
    connCloseCount (subscribeHeartbeatLoop ho) =
      (if hbTimeoutClose ho = true then 1 else 0) := by
  induction ho with
  | nil => rfl
  | cons s rest ih =>
      cases s with
      | tick t we =>
          cases we with
          | none =>
              simp [subscribeHeartbeatLoop, hbTimeoutClose, connCloseCount_cons,
                Event.isConnClose, ih]
          | some e =>
              simp [subscribeHeartbeatLoop, hbTimeoutClose, connCloseCount_cons,
                Event.isConnClose, ih]
      | interrupt ack =>
          cases ack <;>
            simp [subscribeHeartbeatLoop, hbTimeoutClose, connCloseCount_cons,
              connCloseCount_nil, Event.isConnClose]

theorem hbLoop_closeFrames (ho : List HBStep) :
    closeFrameCount (subscribeHeartbeatLoop ho) =
      (if hbHalts ho = true then 1 else 0) := by
  induction ho with
  | nil => rfl
  | cons s rest ih =>
      cases s with
      | tick t we =>
          cases we with
          | none =>
              simpa [subscribeHeartbeatLoop, hbHalts, HBStep.isInterrupt,
                closeFrameCount_cons, Event.isCloseFrame] using ih
          | some e =>
              simpa [subscribeHeartbeatLoop, hbHalts, HBStep.isInterrupt,
                closeFrameCount_cons, Event.isCloseFrame] using ih
      | interrupt ack =>
          cases ack <;>
            simp [subscribeHeartbeatLoop, hbHalts, HBStep.isInterrupt,
              closeFrameCount_cons, closeFrameCount_nil, Event.isCloseFrame]

theorem readLoop_append_frames (tbl : NotificationEvents) (pre ro' : List ReadResult)
    (h : ∀ r ∈ pre, r.isExit = false) :
    subscribeReadLoop tbl (pre ++ ro') =
      subscribeReadLoop tbl pre ++ subscribeReadLoop tbl ro' := by
  induction pre with
  | nil => simp [subscribeReadLoop]
  | cons r rest ih =>
      cases r with
      | readErr code msg =>
          have := h (ReadResult.readErr code msg) (by simp)
          simp [ReadResult.isExit] at this
      | frame notif =>
          have h' : ∀ x ∈ rest, x.isExit = false := fun x hx => h x (by simp [hx])
          cases hl : List.lookup notif.container.Type' tbl.events with
          | some hd => simp [subscribeReadLoop, hl, ih h']
          | none => simp [subscribeReadLoop, hl, ih h']

theorem readLoop_frames_counts (tbl : NotificationEvents) (pre : List ReadResult)
    (h : ∀ r ∈ pre, r.isExit = false) :
    errCbCount (subscribeReadLoop tbl pre) = 0 ∧
      doneCbCount (subscribeReadLoop tbl pre) = 0 := by
  induction pre with
  | nil => exact ⟨rfl, rfl⟩
  | cons r rest ih =>
      cases r with
      | readErr code msg =>
          have := h (ReadResult.readErr code msg) (by simp)
          simp [ReadResult.isExit] at this
      | frame notif =>
          have h' : ∀ x ∈ rest, x.isExit = false := fun x hx => h x (by simp [hx])
          obtain ⟨h1, h2⟩ := ih h'
          cases hl : List.lookup notif.container.Type' tbl.events with
          | some hd =>
              simp [subscribeReadLoop, hl, errCbCount_cons, doneCbCount_cons,
                Event.isErrCb, Event.isDoneCb, h1, h2]
          | none =>
              simp [subscribeReadLoop, hl, errCbCount_cons, doneCbCount_cons,
                Event.isErrCb, Event.isDoneCb, h1, h2]

theorem hbLoop_append_interrupt (pre rest : List HBStep) (ack : Bool)
    (h : ∀ s ∈ pre, s.isInterrupt = false) :
    subscribeHeartbeatLoop (pre ++ HBStep.interrupt ack :: rest) =
      subscribeHeartbeatLoop pre ++
        Event.closeFrame closeNormalClosure ::
          (if ack then []
           else [Event.logMsg ("WebSocket closing"), Event.connClose]) := by
  induction pre with
  | nil => simp [subscribeHeartbeatLoop]
  | cons s pre' ih =>
      cases s with
      | tick t we =>
          have h' : ∀ x ∈ pre', x.isInterrupt = false := fun x hx => h x (by simp [hx])
          cases we with
          | none => simp [subscribeHeartbeatLoop, ih h']
          | some e => simp [subscribeHeartbeatLoop, ih h']
      | interrupt a =>
          have := h (HBStep.interrupt a) (by simp)
          simp [HBStep.isInterrupt] at this

/-- Projection of a read outcome to its frame, if any. -/
def ReadResult.frame? : ReadResult → Option WebsocketNotification
  | ReadResult.frame n => some n
  | _ => none

/-- The frames the read loop processes: the frames delivered before the first
read error, in arrival order. -/
def framesBeforeExit (ro : List ReadResult) : List WebsocketNotification :=
  (ro.takeWhile (fun r => !r.isExit)).filterMap ReadResult.frame?

/-- Specification-side description of the handler invocations the dispatch
contract demands: one invocation per delivered frame whose kind is registered,
with that frame's container, in arrival order. -/
def expectedHandlerCalls (tbl : NotificationEvents) (ro : List ReadResult) :
    List Event :=
  (framesBeforeExit ro).filterMap (fun n =>
    (List.lookup n.container.Type' tbl.events).map
      (fun h => Event.handlerCall h n.container))

/-!
Lemmas about decimal formatting and parsing (the timestamp codec).
-/

theorem decDigit?_digitChar (d : Nat) (h : d < 10) :
    decDigit? (digitChar d) = some d := by
  interval_cases d <;> decide

theorem digitChar_bounds (d : Nat) (h : d < 10) :
    48 ≤ (digitChar d).toNat ∧ (digitChar d).toNat ≤ 57 := by
  interval_cases d <;> exact ⟨by decide, by decide⟩

theorem natToDigits_ne_nil (n : Nat) : natToDigits n ≠ [] := by
  rw [natToDigits]
  split <;> simp

theorem natToDigits_mem_bounds (n : Nat) :
    ∀ c ∈ natToDigits n, 48 ≤ c.toNat ∧ c.toNat ≤ 57 := by
  induction n using Nat.strong_induction_on with
  | _ n ih =>
      rw [natToDigits]
      split
      next h =>
          intro c hc
          simp only [List.mem_singleton] at hc
          subst hc
          exact digitChar_bounds n h
      next h =>
          intro c hc
          rw [List.mem_append] at hc
          rcases hc with hc | hc
          · exact ih (n / 10) (Nat.div_lt_self (by omega) (by omega)) c hc
          · simp only [List.mem_singleton] at hc
            subst hc
            exact digitChar_bounds (n % 10) (Nat.mod_lt _ (by omega))

theorem foldl_digitStep_natToDigits (n : Nat) :
    ∀ a : Nat, (natToDigits n).foldl digitStep (some a) =
      some (a * 10 ^ (natToDigits n).length + n) := by
  induction n using Nat.strong_induction_on with
  | _ n ih =>
      intro a
      rw [natToDigits]
      split
      next h =>
          simp [digitStep, decDigit?_digitChar n h]
      next h =>
          have hlt : n / 10 < n := Nat.div_lt_self (by omega) (by omega)
          rw [List.foldl_append, ih (n / 10) hlt a]
          have hmod : n % 10 < 10 := Nat.mod_lt _ (by omega)
          have hqr : 10 * (n / 10) + n % 10 = n := Nat.div_add_mod n 10
          simp only [List.foldl_cons, List.foldl_nil, digitStep,
            decDigit?_digitChar (n % 10) hmod, Option.bind, Option.map,
            List.length_append, List.length_singleton, Option.some.injEq]
          calc (a * 10 ^ (natToDigits (n / 10)).length + n / 10) * 10 + n % 10
              = a * (10 ^ (natToDigits (n / 10)).length * 10) +
                  (10 * (n / 10) + n % 10) := by ring
            _ = a * 10 ^ ((natToDigits (n / 10)).length + 1) + n := by
                rw [hqr, pow_succ]

theorem digitsVal?_natToDigits (n : Nat) : digitsVal? (natToDigits n) = some n := by
  have h := foldl_digitStep_natToDigits n 0
  cases hD : natToDigits n with
  | nil => exact absurd hD (natToDigits_ne_nil n)
  | cons c cs =>
      rw [hD] at h
      simpa [digitsVal?] using h

theorem toList_mk (cs : List Char) : (String.mk cs).toList = cs := rfl

theorem ParseInt64_FormatInt (v : Int) (h1 : int64Min ≤ v) (h2 : v ≤ int64Max) :
    ParseInt64 (FormatInt v) = Except.ok v := by
  have hr : ¬(v < int64Min ∨ int64Max < v) := by
    push_neg
    exact ⟨h1, h2⟩
  by_cases hv : v < 0
  · have hD := digitsVal?_natToDigits v.natAbs
    have hneg : -((v.natAbs : Nat) : Int) = v := by omega
    rw [FormatInt, if_pos hv]
    simp only [ParseInt64, toList_mk, List.head?_cons, List.tail_cons,
      Option.some.injEq, reduceCtorEq, if_true, if_false]
    simp only [hD]
    have habs : -|v| = v := by
      rw [abs_of_nonpos (le_of_lt hv)]
      ring
    simp [habs, hr]
  · rw [FormatInt, if_neg hv]
    have hD := digitsVal?_natToDigits v.natAbs
    cases hD2 : natToDigits v.natAbs with
    | nil => exact absurd hD2 (natToDigits_ne_nil _)
    | cons c cs =>
        have hb := natToDigits_mem_bounds v.natAbs c (by rw [hD2]; simp)
        have hc1 : c ≠ '-' := by
          intro hc
          rw [hc] at hb
          exact absurd hb (by decide)
        have hc2 : c ≠ '+' := by
          intro hc
          rw [hc] at hb
          exact absurd hb (by decide)
        rw [hD2] at hD
        simp only [ParseInt64, toList_mk, List.head?_cons, Option.some.injEq]
        rw [if_neg (by simpa using hc1), if_neg (by simpa using hc2)]
        simp only [hD]
        have habs : |v| = v := abs_of_nonneg (not_lt.mp hv)
        simp [habs, hr]

/-!
Go map assignment lemmas.
-/

theorem lookup_map_overwrite (m : List (String × Handler)) (k : String) (v : Handler)
    (h : m.any (fun p => p.1 = k) = true) :
    List.lookup k (m.map (fun p => if p.1 = k then (k, v) else p)) = some v := by
  induction m with
  | nil => simp at h
  | cons a m' ih =>
      obtain ⟨a1, a2⟩ := a
      by_cases hk : a1 = k
      · simp only [List.map_cons, if_pos hk]
        rw [List.lookup_cons]
        have hb : (k == k) = true := by simp
        rw [hb]
      · have h' : m'.any (fun p => p.1 = k) = true := by
          simpa [List.any_cons, hk] using h
        simp only [List.map_cons, if_neg hk]
        rw [List.lookup_cons]
        have hb : (k == a1) = false := by
          simp
          exact fun hkk => hk hkk.symm
        rw [hb]
        exact ih h'

theorem lookup_append_new (m : List (String × Handler)) (k : String) (v : Handler)
    (h : m.any (fun p => p.1 = k) = false) :
    List.lookup k (m ++ [(k, v)]) = some v := by
  induction m with
  | nil =>
      rw [List.nil_append, List.lookup_cons]
      have hb : (k == k) = true := by simp
      rw [hb]
  | cons a m' ih =>
      obtain ⟨a1, a2⟩ := a
      have hmem := (List.any_eq_false).mp h
      have hk : ¬(a1 = k) := by
        have := hmem (a1, a2) (by simp)
        simpa using this
      have h' : m'.any (fun p => p.1 = k) = false := by
        rw [List.any_eq_false]
        intro x hx
        exact hmem x (by simp [hx])
      rw [List.cons_append, List.lookup_cons]
      have hb : (k == a1) = false := by
        simp
        exact fun hkk => hk hkk.symm
      rw [hb]
      exact ih h'

theorem lookup_mapSet (m : List (String × Handler)) (k : String) (v : Handler) :
    List.lookup k (mapSet m k v) = some v := by
  rw [mapSet]
  split
  next h => exact lookup_map_overwrite m k v h
  next h => exact lookup_append_new m k v (Bool.eq_false_iff.mpr h)

/-!
Concrete sample values for the closed evaluations.
-/

/-- A concrete payload bundle carrying only a type tag. -/
def sampleContainer (t : String) : NotificationContainer :=
  { timelineEntry := [], activityNotification := [], statusNotification := []
  , playSessionStateNotification := [], reachabilityNotification := []
  , backgroundProcessingQueueEventNotification := [], transcodeSession := []
  , setting := [], Size := 0, Type' := t }

/-- A concrete decoded frame carrying only a type tag. -/
def sampleFrame (t : String) : WebsocketNotification :=
  { container := sampleContainer t }

/-- A concrete client. -/
def samplePlex : Plex :=
  { URL := "http://plex.example:32400", Token := "secret-token" }

/-- A concrete parse result for `samplePlex.URL`. -/
def sampleBase : GoURL :=
  { Scheme := "http", Host := "plex.example:32400", Path := "", RawQuery := "" }

/-- A concrete always-succeeding model of `url.Parse`. -/
def sampleParse : String → Except String GoURL := fun _ => Except.ok sampleBase

/-- A concrete always-failing model of `url.Parse`. -/
def sampleBadParse : String → Except String GoURL :=
  fun _ => Except.error ("parse error: invalid URL")

/-- A dispatch table with a caller handler registered for the playing kind. -/
def sampleTable : NotificationEvents := NewNotificationEvents.OnPlaying (Handler.user 7)

/-!
Claim theorems.
-/

/-- C1 counterexample: the claim says that across the whole session lifetime
exactly one of {errCb, doneCb} is invoked, exactly once.  The code has no
one-shot guard: in the concrete session below the read goroutine exits with a
transport error (one errCb) and one heartbeat write also fails (a second
errCb, after which the heartbeat keeps ticking), so the callbacks are invoked
twice, refuting the claim. -/
theorem C1_counterexample :
    ¬ (callbackCount
        (sessionEvents NewNotificationEvents
          [ReadResult.readErr none ("connection reset by peer")]
          [HBStep.tick ("tick-1") (some ("broken pipe")), HBStep.interrupt false]) = 1) := by
  decide

/-- C1 amended: the read goroutine invokes exactly one of {errCb, doneCb},
exactly once, when its loop terminates; the heartbeat goroutine additionally
invokes errCb once per failed liveness write (without terminating and with no
one-shot guard), so over a session whose read loop terminates the outcome
callbacks are invoked exactly 1 + (number of failed heartbeat writes) times. -/
theorem C1_amended (tbl : NotificationEvents) (ro : List ReadResult)
    (ho : List HBStep) (h : readHalts ro = true) :
    callbackCount (sessionEvents tbl ro ho) = 1 + hbWriteErrs ho := by
  rw [sessionEvents, callbackCount_append, readLoop_halts_callbacks tbl ro h,
    hbLoop_callbacks]

/-- C1 amended, evaluated at a concrete session. -/
theorem C1_amended_witness :
    readHalts [ReadResult.readErr (some 1001) ("going away")] = true ∧
      callbackCount
        (sessionEvents NewNotificationEvents
          [ReadResult.readErr (some 1001) ("going away")]
          [HBStep.tick ("tick-1") (some ("write failed")), HBStep.interrupt true]) =
        1 + hbWriteErrs
              [HBStep.tick ("tick-1") (some ("write failed")), HBStep.interrupt true] :=
  ⟨by decide,
   C1_amended NewNotificationEvents
     [ReadResult.readErr (some 1001) ("going away")]
     [HBStep.tick ("tick-1") (some ("write failed")), HBStep.interrupt true]
     (by decide)⟩

/-- C2 counterexample: the claim says the close is initiated by exactly one of
the two tasks, never both, and only ever by the heartbeat task.  In the code
the read goroutine always runs `defer c.Close()` when it exits; in the
concrete session below (read exits on a transport error, shutdown goes
through the timeout arm) the connection is closed twice, once of those by the
read task — refuting both parts. -/
theorem C2_counterexample :
    ¬ (connCloseCount
          (sessionEvents NewNotificationEvents
            [ReadResult.readErr none ("use of closed network connection")]
            [HBStep.interrupt false]) = 1 ∧
        connCloseCount
          (subscribeReadLoop NewNotificationEvents
            [ReadResult.readErr none ("use of closed network connection")]) = 0) := by
  decide

/-- C2 amended: the read goroutine closes the connection exactly once whenever
its loop terminates (its deferred close); the heartbeat goroutine closes it
exactly once more when and only when the shutdown wait ends in the timeout
arm.  The connection close is therefore invoked once or twice per session,
not at most once and not only by the heartbeat task. -/
theorem C2_amended (tbl : NotificationEvents) (ro : List ReadResult)
    (ho : List HBStep) (h : readHalts ro = true) :
    connCloseCount (subscribeReadLoop tbl ro) = 1 ∧
      connCloseCount (subscribeHeartbeatLoop ho) =
        (if hbTimeoutClose ho = true then 1 else 0) ∧
      connCloseCount (sessionEvents tbl ro ho) =
        1 + (if hbTimeoutClose ho = true then 1 else 0) := by
  refine ⟨readLoop_halts_connClose tbl ro h, hbLoop_connClose ho, ?_⟩
  rw [sessionEvents, connCloseCount_append, readLoop_halts_connClose tbl ro h,
    hbLoop_connClose]

/-- C2 amended, evaluated at a concrete session. -/
theorem C2_amended_witness :
    readHalts [ReadResult.readErr none ("read failed")] = true ∧
      connCloseCount
        (sessionEvents NewNotificationEvents
          [ReadResult.readErr none ("read failed")] [HBStep.interrupt false]) =
        1 + (if hbTimeoutClose [HBStep.interrupt false] = true then 1 else 0) :=
  ⟨by decide,
   (C2_amended NewNotificationEvents [ReadResult.readErr none ("read failed")]
     [HBStep.interrupt false] (by decide)).2.2⟩

theorem hbTimeoutClose_append_interrupt (pre rest : List HBStep) (ack : Bool)
    (hpre : ∀ s ∈ pre, s.isInterrupt = false) :
    hbTimeoutClose (pre ++ HBStep.interrupt ack :: rest) = (!ack) := by
  induction pre with
  | nil => simp [hbTimeoutClose]
  | cons s pre' ih =>
      cases s with
      | tick t we =>
          have h' : ∀ x ∈ pre', x.isInterrupt = false := fun x hx => hpre x (by simp [hx])
          simpa [hbTimeoutClose] using ih h'
      | interrupt a =>
          have := hpre (HBStep.interrupt a) (by simp)
          simp [HBStep.isInterrupt] at this

/-- C3: once the cancellation signal fires, the heartbeat goroutine sends
exactly one close-frame carrying the normal-closure code (having sent none
before), then waits on whichever of the done signal and the one-second
timeout comes first — nothing but the timeout-arm print and close follows the
close-frame, and later oracle entries are ignored because the goroutine
returns — and the connection ends up closed: by the heartbeat itself in the
timeout arm, and by the read goroutine's deferred close in the done arm.
`hread` is the environment fact that the read loop exits: when the done
signal won the race the read goroutine has already exited, and when the
timeout won, the heartbeat's close makes the read goroutine's next read fail. -/
theorem C3_shutdown (tbl : NotificationEvents) (ro : List ReadResult)
    (pre rest : List HBStep) (ack : Bool)
    (hpre : ∀ s ∈ pre, s.isInterrupt = false)
    (hread : readHalts ro = true) :
    subscribeHeartbeatLoop (pre ++ HBStep.interrupt ack :: rest) =
      subscribeHeartbeatLoop pre ++
        Event.closeFrame closeNormalClosure ::
          (if ack then []
           else [Event.logMsg ("WebSocket closing"), Event.connClose]) ∧
    closeFrameCount (subscribeHeartbeatLoop (pre ++ HBStep.interrupt ack :: rest)) = 1 ∧
    closeFrameCount (subscribeHeartbeatLoop pre) = 0 ∧
    connCloseCount (subscribeHeartbeatLoop (pre ++ HBStep.interrupt ack :: rest)) =
      (if ack then 0 else 1) ∧
    1 ≤ connCloseCount (sessionEvents tbl ro (pre ++ HBStep.interrupt ack :: rest)) := by
  have hpre' : hbHalts pre = false := by
    rw [hbHalts, List.any_eq_false]
    intro s hs
    simp [hpre s hs]
  have hhalts : hbHalts (pre ++ HBStep.interrupt ack :: rest) = true := by
    rw [hbHalts, List.any_eq_true]
    exact ⟨HBStep.interrupt ack, by simp, by simp [HBStep.isInterrupt]⟩
  have htime : hbTimeoutClose (pre ++ HBStep.interrupt ack :: rest) = (!ack) :=
    hbTimeoutClose_append_interrupt pre rest ack hpre
  refine ⟨hbLoop_append_interrupt pre rest ack hpre, ?_, ?_, ?_, ?_⟩
  · rw [hbLoop_closeFrames, hhalts]
    rfl
  · rw [hbLoop_closeFrames, hpre']
    rfl
  · rw [hbLoop_connClose, htime]
    cases ack <;> rfl
  · rw [sessionEvents, connCloseCount_append,
      readLoop_halts_connClose tbl ro hread]
    omega

/-- C3, evaluated at a concrete session going through the timeout arm. -/
theorem C3_shutdown_witness :
    (∀ s ∈ [HBStep.tick ("tick-1") none], s.isInterrupt = false) ∧
      readHalts [ReadResult.readErr none ("use of closed network connection")] = true ∧
      subscribeHeartbeatLoop
          ([HBStep.tick ("tick-1") none] ++
            HBStep.interrupt false :: [HBStep.tick ("tick-2") none]) =
        subscribeHeartbeatLoop [HBStep.tick ("tick-1") none] ++
          Event.closeFrame closeNormalClosure ::
            (if false then []
             else [Event.logMsg ("WebSocket closing"), Event.connClose]) :=
  ⟨by decide, by decide,
   (C3_shutdown NewNotificationEvents
     [ReadResult.readErr none ("use of closed network connection")]
     [HBStep.tick ("tick-1") none] [HBStep.tick ("tick-2") none] false
     (by decide) (by decide)).1⟩

/-- C4: whenever the base address parses successfully, the dial request built
by `SubscribeToNotifications` has scheme "wss", the parsed address's host, the
fixed path "/:/websockets/notifications", an empty query string, and carries
the token in the "X-Plex-Token" header — not as a query parameter. -/
theorem C4_dialRequest (p : Plex) (parse : String → Except String GoURL)
    (u : GoURL) (dialErr : Option String) (h : parse p.URL = Except.ok u) :
    (p.SubscribeToNotifications parse dialErr).dialed? =
      some { url := { Scheme := "wss", Host := u.Host
                    , Path := "/:/websockets/notifications", RawQuery := "" }
           , headers := [("X-Plex-Token", [p.Token])] } := by
  rw [Plex.SubscribeToNotifications, h]
  cases dialErr <;> rfl

/-- C4, evaluated at a concrete client. -/
theorem C4_dialRequest_witness :
    sampleParse (samplePlex.URL) = Except.ok sampleBase ∧
      (samplePlex.SubscribeToNotifications sampleParse none).dialed? =
        some { url := { Scheme := "wss", Host := sampleBase.Host
                      , Path := "/:/websockets/notifications", RawQuery := "" }
             , headers := [("X-Plex-Token", [samplePlex.Token])] } :=
  ⟨rfl, C4_dialRequest samplePlex sampleParse sampleBase none rfl⟩

/-- C5: when parsing the base address fails, the error callback is invoked
exactly once with the parse failure and the setup returns with no goroutine
spawned (and no dial attempted); when the dial fails, the error callback is
invoked exactly once with the dial failure and the setup returns with no
goroutine spawned.  In both cases the recorded event list is exactly one
errCb. -/
theorem C5_setupFailure (p : Plex) (parse : String → Except String GoURL)
    (dialErr : Option String) :
    (∀ e, parse p.URL = Except.error e →
        p.SubscribeToNotifications parse dialErr =
          SetupOutcome.failed [Event.errCb e]) ∧
    (∀ u e, parse p.URL = Except.ok u → dialErr = some e →
        p.SubscribeToNotifications parse dialErr =
          SetupOutcome.dialFailed
            { url := { Scheme := "wss", Host := u.Host
                     , Path := "/:/websockets/notifications", RawQuery := "" }
            , headers := [("X-Plex-Token", [p.Token])] }
            [Event.errCb e]) := by
  constructor
  · intro e he
    rw [Plex.SubscribeToNotifications, he]
  · intro u e hu hd
    rw [Plex.SubscribeToNotifications, hu, hd]

/-- C5, evaluated at a concrete parse failure and a concrete dial failure. -/
theorem C5_setupFailure_witness :
    (sampleBadParse (samplePlex.URL) = Except.error ("parse error: invalid URL") ∧
      samplePlex.SubscribeToNotifications sampleBadParse none =
        SetupOutcome.failed [Event.errCb ("parse error: invalid URL")]) ∧
    (sampleParse (samplePlex.URL) = Except.ok sampleBase ∧
      samplePlex.SubscribeToNotifications sampleParse
          (some ("dial tcp: connection refused")) =
        SetupOutcome.dialFailed
          { url := { Scheme := "wss", Host := sampleBase.Host
                   , Path := "/:/websockets/notifications", RawQuery := "" }
          , headers := [("X-Plex-Token", [samplePlex.Token])] }
          [Event.errCb ("dial tcp: connection refused")]) :=
  ⟨⟨rfl, (C5_setupFailure samplePlex sampleBadParse none).1 _ rfl⟩,
   ⟨rfl, (C5_setupFailure samplePlex sampleParse
      (some ("dial tcp: connection refused"))).2 sampleBase _ rfl rfl⟩⟩

/-- C6: when a read reports a close error with the normal-closure code (after
any number of delivered frames), the read goroutine invokes doneCb exactly
once, invokes errCb not at all, and terminates — later oracle entries are
irrelevant, and the only events after the prefix are the doneCb and the two
deferred actions. -/
theorem C6_normalClosure (tbl : NotificationEvents) (pre rest : List ReadResult)
    (msg : String) (hpre : ∀ r ∈ pre, r.isExit = false) :
    subscribeReadLoop tbl
        (pre ++ ReadResult.readErr (some closeNormalClosure) msg :: rest) =
      subscribeReadLoop tbl pre ++
        [Event.doneCb, Event.closeDone, Event.connClose] ∧
    doneCbCount (subscribeReadLoop tbl
        (pre ++ ReadResult.readErr (some closeNormalClosure) msg :: rest)) = 1 ∧
    errCbCount (subscribeReadLoop tbl
        (pre ++ ReadResult.readErr (some closeNormalClosure) msg :: rest)) = 0 := by
  have hsplit := readLoop_append_frames tbl pre
    (ReadResult.readErr (some closeNormalClosure) msg :: rest) hpre
  have hexit : subscribeReadLoop tbl
      (ReadResult.readErr (some closeNormalClosure) msg :: rest) =
        [Event.doneCb, Event.closeDone, Event.connClose] := by
    simp [subscribeReadLoop]
  obtain ⟨h1, h2⟩ := readLoop_frames_counts tbl pre hpre
  refine ⟨by rw [hsplit, hexit], ?_, ?_⟩
  · rw [hsplit, hexit, doneCbCount_append, h2]
    rfl
  · rw [hsplit, hexit, errCbCount_append, h1]
    rfl

/-- C6, evaluated at a concrete oracle: one frame, then a normal closure. -/
theorem C6_normalClosure_witness :
    (∀ r ∈ [ReadResult.frame (sampleFrame ("playing"))], r.isExit = false) ∧
      doneCbCount (subscribeReadLoop sampleTable
        ([ReadResult.frame (sampleFrame ("playing"))] ++
          ReadResult.readErr (some closeNormalClosure) ("websocket: close 1000 (normal)") ::
            [ReadResult.readErr none ("never read")])) = 1 :=
  ⟨by decide,
   (C6_normalClosure sampleTable [ReadResult.frame (sampleFrame ("playing"))]
     [ReadResult.readErr none ("never read")]
     ("websocket: close 1000 (normal)") (by decide)).2.1⟩

/-- C7: for a decoded frame whose type has a dispatch-table entry, the read
loop invokes exactly that handler with exactly that frame's payload bundle
and then continues with the remaining frames; for a frame whose type has no
entry, only the diagnostic log is emitted — no handler is invoked, errCb is
not invoked, and the loop continues with the remaining frames. -/
theorem C7_dispatch (tbl : NotificationEvents) (notif : WebsocketNotification)
    (rest : List ReadResult) :
    (∀ h, List.lookup notif.container.Type' tbl.events = some h →
        subscribeReadLoop tbl (ReadResult.frame notif :: rest) =
          Event.handlerCall h notif.container :: subscribeReadLoop tbl rest) ∧
    (List.lookup notif.container.Type' tbl.events = none →
        subscribeReadLoop tbl (ReadResult.frame notif :: rest) =
          Event.logMsg ("Unknown websocket event name: " ++ notif.container.Type') ::
            subscribeReadLoop tbl rest ∧
        List.countP (fun e => e.isHandlerCall)
            (subscribeReadLoop tbl (ReadResult.frame notif :: rest)) =
          List.countP (fun e => e.isHandlerCall) (subscribeReadLoop tbl rest) ∧
        errCbCount (subscribeReadLoop tbl (ReadResult.frame notif :: rest)) =
          errCbCount (subscribeReadLoop tbl rest)) := by
  constructor
  · intro h hl
    simp [subscribeReadLoop, hl]
  · intro hl
    refine ⟨by simp [subscribeReadLoop, hl], ?_, ?_⟩
    · simp [subscribeReadLoop, hl, List.countP_cons, Event.isHandlerCall]
    · simp [subscribeReadLoop, hl, errCbCount_cons, Event.isErrCb]

/-- C7, evaluated with the registered playing handler and an unregistered
kind. -/
theorem C7_dispatch_witness :
    (List.lookup (sampleFrame ("playing")).container.Type' sampleTable.events =
        some (Handler.user 7) ∧
      subscribeReadLoop sampleTable [ReadResult.frame (sampleFrame ("playing"))] =
        [Event.handlerCall (Handler.user 7) (sampleContainer ("playing"))]) ∧
    (List.lookup (sampleFrame ("mystery")).container.Type' sampleTable.events = none ∧
      subscribeReadLoop sampleTable [ReadResult.frame (sampleFrame ("mystery"))] =
        [Event.logMsg ("Unknown websocket event name: mystery")]) :=
  ⟨⟨by decide,
    (C7_dispatch sampleTable (sampleFrame ("playing")) []).1 (Handler.user 7)
      (by decide)⟩,
   ⟨by decide,
    ((C7_dispatch sampleTable (sampleFrame ("mystery")) []).2 (by decide)).1⟩⟩

/-- The subsequence of handler invocations in a trace. -/
def handlerCalls (evs : List Event) : List Event :=
  evs.filter (fun e => e.isHandlerCall)

theorem handlerCalls_nil : handlerCalls [] = [] := rfl

theorem handlerCalls_cons (e : Event) (evs : List Event) :
    handlerCalls (e :: evs) =
      (if e.isHandlerCall = true then [e] else []) ++ handlerCalls evs := by
  rw [handlerCalls, List.filter_cons]
  by_cases h : e.isHandlerCall = true
  · rw [if_pos h, if_pos h]
    rfl
  · rw [if_neg h, if_neg h]
    rfl

/-- C8: the handler invocations performed by the read loop are exactly one
invocation per delivered frame whose kind is registered, each carrying that
frame's payload bundle, in frame arrival order.  The read loop is a single
sequential task, so each invocation is synchronous and completes before the
next frame is read — in the model, the invocation is an element of the
task's own ordered event sequence. -/
theorem C8_ordering (tbl : NotificationEvents) (ro : List ReadResult) :
    handlerCalls (subscribeReadLoop tbl ro) = expectedHandlerCalls tbl ro := by
  induction ro with
  | nil => rfl
  | cons r rest ih =>
      cases r with
      | readErr code msg =>
          by_cases hc : code = some closeNormalClosure <;>
            simp [subscribeReadLoop, hc, expectedHandlerCalls, framesBeforeExit,
              ReadResult.isExit, handlerCalls, Event.isHandlerCall, List.filter]
      | frame notif =>
          cases hl : List.lookup notif.container.Type' tbl.events with
          | some hd =>
              rw [subscribeReadLoop, hl]
              have hexp : expectedHandlerCalls tbl (ReadResult.frame notif :: rest) =
                  Event.handlerCall hd notif.container ::
                    expectedHandlerCalls tbl rest := by
                simp [expectedHandlerCalls, framesBeforeExit, ReadResult.isExit,
                  List.takeWhile_cons, ReadResult.frame?, hl]
              rw [hexp, handlerCalls_cons]
              have hp : (Event.handlerCall hd notif.container).isHandlerCall = true := rfl
              rw [hp, if_pos rfl, ih]
              rfl
          | none =>
              rw [subscribeReadLoop, hl]
              have hexp : expectedHandlerCalls tbl (ReadResult.frame notif :: rest) =
                  expectedHandlerCalls tbl rest := by
                simp [expectedHandlerCalls, framesBeforeExit, ReadResult.isExit,
                  List.takeWhile_cons, ReadResult.frame?, hl]
              rw [hexp, handlerCalls_cons]
              have hp : (Event.logMsg
                  ("Unknown websocket event name: " ++ notif.container.Type')).isHandlerCall =
                    false := rfl
              rw [hp, if_neg (by simp), ih]
              rfl

/-- The event kinds seeded by `NewNotificationEvents`, in construction order. -/
def recognizedKinds : List String :=
  ["playing", "progress", "reachability", "transcode.end",
   "transcodeSession.start", "transcodeSession.end", "transcodeSession.update",
   "preference", "update.statechange", "activity", "backgroundProcessingQueue",
   "status", "timeline", "account"]

/-- C9: the freshly constructed dispatch table has exactly the recognized
kinds as keys, every one of them bound to the no-op handler; registering the
playing handler or the transcode-update handler leaves the key set unchanged
(an overwrite, not an insert) and makes the lookup return the new handler;
and for any Go map and key, the last assignment for that key wins. -/
theorem C9_dispatchTable :
    NewNotificationEvents.events.map Prod.fst = recognizedKinds ∧
    NewNotificationEvents.events.all (fun pr => pr.2 = Handler.noop) = true ∧
    (∀ fn, (NewNotificationEvents.OnPlaying fn).events.map Prod.fst =
        recognizedKinds) ∧
    (∀ fn, List.lookup ("playing") ((NewNotificationEvents.OnPlaying fn).events) =
        some fn) ∧
    (∀ fn, (NewNotificationEvents.OnTranscodeUpdate fn).events.map Prod.fst =
        recognizedKinds) ∧
    (∀ fn, List.lookup ("transcodeSession.update")
        ((NewNotificationEvents.OnTranscodeUpdate fn).events) = some fn) ∧
    (∀ (m : List (String × Handler)) (k : String) (f g : Handler),
        List.lookup k (mapSet (mapSet m k g) k f) = some f) :=
  ⟨by decide, by decide, fun fn => rfl, fun fn => rfl, fun fn => rfl, fun fn => rfl,
   fun m k f g => lookup_mapSet (mapSet m k g) k f⟩

/-- C10: marshalling a timestamp always succeeds (nil error); unmarshalling
the produced bytes succeeds and overwrites the receiver with
`time.Unix(t.Unix(), 0)` — the Unix value round-trips while sub-second
precision and the location are discarded (the result has `nsec` 0 and the
Local location irrespective of the original's `nsec` and `loc`).  When the
input is not a decimal integer, unmarshalling returns the parse error and
leaves the receiver unchanged.  The range hypotheses say `t.sec` is an int64
value, which Go's `time.Time.Unix` guarantees by its return type. -/
theorem C10_timestamp :
    (∀ (t t' : Timestamp), int64Min ≤ t.sec → t.sec ≤ int64Max →
        (Timestamp.MarshalJSON t).2 = none ∧
        t'.UnmarshalJSON (Timestamp.MarshalJSON t).1 = (timeUnix t.Unix 0, none) ∧
        (timeUnix t.Unix 0).sec = t.Unix ∧
        (timeUnix t.Unix 0).nsec = 0 ∧
        (timeUnix t.Unix 0).loc = "Local") ∧
    (∀ (t' : Timestamp) (s e : String), ParseInt64 s = Except.error e →
        t'.UnmarshalJSON s = (t', some e)) := by
  constructor
  · intro t t' h1 h2
    refine ⟨rfl, ?_, rfl, rfl, rfl⟩
    have hm : (Timestamp.MarshalJSON t).1 = FormatInt t.sec := rfl
    rw [hm, Timestamp.UnmarshalJSON, ParseInt64_FormatInt t.sec h1 h2]
    rfl
  · intro t' s e h
    rw [Timestamp.UnmarshalJSON, h]

/-- C10, evaluated at a concrete timestamp with nonzero sub-second part and a
non-Local location, and at a concrete malformed input. -/
theorem C10_timestamp_witness :
    (int64Min ≤ (1700000009 : Int) ∧ (1700000009 : Int) ≤ int64Max ∧
      Timestamp.UnmarshalJSON
          { sec := 0, nsec := 0, loc := "UTC" }
          (Timestamp.MarshalJSON
            { sec := 1700000009, nsec := 123456789, loc := "UTC" }).1 =
        (timeUnix 1700000009 0, none)) ∧
    (ParseInt64 ("oops") = Except.error (strconvSyntaxError ("oops")) ∧
      Timestamp.UnmarshalJSON { sec := 5, nsec := 6, loc := "x" } ("oops") =
        ({ sec := 5, nsec := 6, loc := "x" }, some (strconvSyntaxError ("oops")))) :=
  ⟨⟨by decide, by decide,
    (C10_timestamp.1 { sec := 1700000009, nsec := 123456789, loc := "UTC" }
      { sec := 0, nsec := 0, loc := "UTC" } (by decide) (by decide)).2.1⟩,
   ⟨by rfl,
    C10_timestamp.2 { sec := 5, nsec := 6, loc := "x" } ("oops") _ (by rfl)⟩⟩
